import Mathlib

/-!
Verification of the silent token acquisition and cache-hydration path of the
NestedAppAuthController (msal-browser, nested app auth operating mode).

The controller itself (src/lib/msal-browser/src/controllers/NestedAppAuthController.ts)
is embedded faithfully as state-passing functions over an explicit `St` record
that carries the browser storage state and a chronological trace of observable
effects (emitted events, performance measurements, bridge calls, token-storage
reads).  Collaborators that live outside the provided sources
(BrowserCacheManager, NestedAppAuthAdapter, TimeUtils, EventHandler,
AccountManager) are modelled from the specification; each such definition is
marked `Modelled from the spec:` in its doc comment.

Conventions:
* JS `undefined`/empty ("falsy") optional strings are modelled as `none`;
  a list-valued field whose JS guard is `xs?.length` is modelled as a plain
  list where the empty list stands for absent.
* Asynchronous collaborator calls that may reject are modelled as `Except`.
* `browserCrypto.createNewGuid()` is modelled as drawing from a guid stream
  `env.guid : Nat → String` at a counter kept in the state, so that "a fresh
  identifier is generated exactly once" is expressible as a counter increment.
-/

/-- AccountInfo: identity record (stable home identifier, local identifier,
tenant identifier, environment, display username). -/
structure AccountInfo where
  homeAccountId : String
  localAccountId : String
  tenantId : String
  environment : String
  username : String
deriving DecidableEq, Repr

/-- A silent / popup request as consumed by the controller: target scopes
(empty list = caller supplied none), optional account, optional authority,
optional correlation identifier. -/
structure TokenRequest where
  scopes : List String
  account : Option AccountInfo
  authority : Option String
  correlationId : Option String
deriving DecidableEq, Repr

/-- The normalized request built inside `acquireTokenFromCacheInternal`
(spread of the incoming request with correlationId / authority / scopes
defaulted). -/
structure BaseAuthRequest where
  scopes : List String
  account : Option AccountInfo
  authority : String
  correlationId : String
deriving DecidableEq, Repr

/-- Cached access token entity as returned by the storage collaborator. -/
structure CachedAccessToken where
  secret : String
  cachedAt : Nat
  expiresOn : Nat
  homeAccountId : String
  tenantId : String
  target : List String
deriving DecidableEq, Repr

/-- Cached id token entity as returned by the storage collaborator. -/
structure CachedIdToken where
  secret : String
  homeAccountId : String
  tenantId : String
deriving DecidableEq, Repr

/-- The unified authentication result. -/
structure AuthenticationResult where
  account : AccountInfo
  scopes : List String
  accessToken : String
  idToken : String
  expiresOn : Nat
  correlationId : String
  fromCache : Bool
deriving DecidableEq, Repr

/-- The bridge token request shape (`toNaaTokenRequest` output). -/
structure NaaTokenRequest where
  scopes : List String
  authority : Option String
  correlationId : String
deriving DecidableEq, Repr

/-- The bridge token response shape returned by
`bridgeProxy.getTokenSilent` / `getTokenInteractive`. -/
structure NaaTokenResponse where
  accessToken : String
  idToken : String
  expiresIn : Nat
  account : AccountInfo
deriving DecidableEq, Repr

/-- A raw exception raised inside the try-block of the acquisition flows:
either a failure surfaced by the host bridge or a rejection of an
asynchronous storage operation during hydration. -/
inductive RawError where
  | bridge (code : String) (message : String)
  | storage (message : String)
deriving DecidableEq, Repr

/-- The library error taxonomy surfaced to callers of the controller. -/
inductive AuthError where
  | unsupportedOperation
  | internalFromBridge (raw : RawError)
deriving DecidableEq, Repr

/-- Modelled from the spec: `fromBridgeError(raw) -> InternalError`, the pure
mapping of the NestedAppAuthAdapter (not under src/) that converts a raw
bridge/storage exception into the internal error kind. -/
def fromBridgeError (e : RawError) : AuthError :=
  AuthError.internalFromBridge e

/-- Modelled from the spec: the standard OIDC minimum scope set
(`OIDC_DEFAULT_SCOPES` of msal-common, not under src/). -/
def OIDC_DEFAULT_SCOPES : List String :=
  ["openid", "profile", "offline_access"]

/-- Modelled from the spec: `TimeUtils.wasClockTurnedBack(cachedAt)`
(msal-common, not under src/): the clock moved backward since the token was
cached, i.e. the cached-at stamp is in the future. -/
def wasClockTurnedBack (now cachedAt : Nat) : Bool :=
  decide (now < cachedAt)

/-- Modelled from the spec: `TimeUtils.isTokenExpired(expiresOn, offset)`
(msal-common, not under src/): `now >= expiresOn - renewalOffset`, i.e. the
current time is within the renewal-offset margin of expiry. -/
def isTokenExpired (now expiresOn offset : Nat) : Bool :=
  decide (expiresOn ≤ now + offset)

/-- Event types emitted by the acquisition flows. -/
inductive EventKind where
  | acquireTokenStart
  | acquireTokenSuccess
  | acquireTokenFailure
deriving DecidableEq, Repr

/-- Interaction type attached to emitted events. -/
inductive InteractionKind where
  | silent
  | popup
deriving DecidableEq, Repr

/-- The payload passed to `eventHandler.emitEvent`: the validated request,
a result, or `null`. -/
inductive EventPayload where
  | ofRequest (r : TokenRequest)
  | ofResult (r : AuthenticationResult)
  | nullPayload
deriving DecidableEq, Repr

/-- An emitted event: type, interaction type, payload, optional raw error. -/
structure EventMessage where
  kind : EventKind
  interaction : InteractionKind
  payload : EventPayload
  error : Option RawError
deriving DecidableEq, Repr

/-- Performance measurement names used by the controller. -/
inductive MeasName where
  | acquireTokenPopupMeas
  | ssoSilentMeas
  | acquireTokenSilentMeas
deriving DecidableEq, Repr

/-- One observable effect of a run, in chronological order. -/
inductive TraceItem where
  | event (e : EventMessage)
  | measStart (n : MeasName) (correlationId : String)
  | measEnd (n : MeasName) (success : Bool) (withError : Bool)
  | bridgeCall (silent : Bool) (req : NaaTokenRequest)
  | tokenStorageRead (correlationId : String)
deriving DecidableEq, Repr

/-- Token entry persisted by storage-level hydration, keyed by home account
id, tenant and the originally requested scopes. -/
structure TokenEntry where
  homeAccountId : String
  tenantId : String
  scopes : List String
  accessToken : String
  idToken : String
  expiresOn : Nat
deriving DecidableEq, Repr

/-- The browser storage state owned by the storage collaborator: stored
account entities, persisted token entries, and the single active account. -/
structure Store where
  accounts : List AccountInfo
  tokens : List TokenEntry
  activeAccount : Option AccountInfo
deriving DecidableEq, Repr

/-- Full mutable state threaded through a run: storage, effect trace, and the
guid-stream counter of the crypto collaborator. -/
structure St where
  store : Store
  trace : List TraceItem
  guidCount : Nat
deriving DecidableEq, Repr

/-- The environment of external collaborators: crypto guid stream, clock,
configuration, the bridge-reported account context, the storage
collaborator's token lookup contract, and the host bridge itself. -/
structure Env where
  guid : Nat → String
  now : Nat
  renewalOffset : Nat
  bridgeHomeAccountId : String
  getAccessToken : AccountInfo → BaseAuthRequest → Option CachedAccessToken
  getIdToken : AccountInfo → String → Option CachedIdToken
  bridgeSilent : NaaTokenRequest → Except RawError NaaTokenResponse
  bridgeInteractive : NaaTokenRequest → Except RawError NaaTokenResponse
  storageHydrateError : Option RawError

/-- Append one observable effect to the trace. -/
def pushTrace (s : St) (t : TraceItem) : St :=
  { s with trace := s.trace ++ [t] }

/-- Draw the next guid from the crypto collaborator's stream
(`browserCrypto.createNewGuid()`). -/
def newGuid (env : Env) (s : St) : String × St :=
  (env.guid s.guidCount, { s with guidCount := s.guidCount + 1 })

/-- Modelled from the spec: `AccountManager.getAccountByHomeId` (not under
src/) returns the stored account matching the given home identifier. -/
def getAccountByHomeId (homeAccountId : String) (store : Store) :
    Option AccountInfo :=
  store.accounts.find? (fun a => a.homeAccountId == homeAccountId)

/-- Modelled from the spec: `browserStorage.removeAccountContext` (not under
src/) purges all cache entries associated with the account: the account
entity and every token entry of that home account. -/
def removeAccountContext (acct : AccountInfo) (store : Store) : Store :=
  { store with
    accounts := store.accounts.filter
      (fun a => a.homeAccountId != acct.homeAccountId)
    tokens := store.tokens.filter
      (fun t => t.homeAccountId != acct.homeAccountId) }

/-- Modelled from the spec: `browserStorage.setActiveAccount` (not under
src/) records the single active account. -/
def setActiveAccountSt (acct : AccountInfo) (s : St) : St :=
  { s with store := { s.store with activeAccount := some acct } }

/-- Replace the first entry matching the new element's key, else append. -/
def upsertBy (sameKey : α → α → Bool) (a : α) : List α → List α
  | [] => [a]
  | b :: rest =>
    if sameKey b a then a :: rest else b :: upsertBy sameKey a rest

/-- Modelled from the spec: `browserStorage.setAccount` (not under src/)
upserts an account entity, keyed by its home identifier. -/
def setAccountSt (acct : AccountInfo) (store : Store) : Store :=
  { store with
    accounts := upsertBy
      (fun a b => a.homeAccountId == b.homeAccountId) acct store.accounts }

/-- The token entry persisted for a result, keyed by the original request's
scopes (the storage collaborator uses the requested scopes as key context). -/
def mkTokenEntry (result : AuthenticationResult) (request : TokenRequest) :
    TokenEntry :=
  { homeAccountId := result.account.homeAccountId
    tenantId := result.account.tenantId
    scopes := request.scopes
    accessToken := result.accessToken
    idToken := result.idToken
    expiresOn := result.expiresOn }

/-- Modelled from the spec: `browserStorage.hydrateCache(result, request)`
(not under src/), the asynchronous storage-level token persistence; it may
reject (`env.storageHydrateError`), in which case it persists nothing. -/
def storageHydrate (env : Env) (result : AuthenticationResult)
    (request : TokenRequest) (store : Store) : Except RawError Unit × Store :=
  match env.storageHydrateError with
  | some e => (Except.error e, store)
  | none =>
    (Except.ok (),
      { store with
        tokens := upsertBy
          (fun a b =>
            a.homeAccountId == b.homeAccountId && a.tenantId == b.tenantId
              && a.scopes == b.scopes)
          (mkTokenEntry result request) store.tokens })

/-- Modelled from the spec: `nestedAppAuthAdapter.toNaaTokenRequest` (not
under src/) translates the validated request into the bridge wire shape,
preserving scopes, authority and the correlation identifier. -/
def toNaaTokenRequest (request : TokenRequest) : NaaTokenRequest :=
  { scopes := request.scopes
    authority := request.authority
    correlationId := request.correlationId.getD "" }

/-- Modelled from the spec: `nestedAppAuthAdapter.fromNaaTokenResponse` (not
under src/) converts the bridge response into an AuthenticationResult
carrying the request's correlation identifier. -/
def fromNaaTokenResponse (naaRequest : NaaTokenRequest)
    (response : NaaTokenResponse) (reqTimestamp : Nat) :
    AuthenticationResult :=
  { account := response.account
    scopes := naaRequest.scopes
    accessToken := response.accessToken
    idToken := response.idToken
    expiresOn := reqTimestamp + response.expiresIn
    correlationId := naaRequest.correlationId
    fromCache := false }

/-- Modelled from the spec: `nestedAppAuthAdapter.fromCachedTokens` (not
under src/) assembles an AuthenticationResult purely from the two cached
tokens and the normalized request, without touching the bridge. -/
def fromCachedTokens (acct : AccountInfo) (idToken : CachedIdToken)
    (accessToken : CachedAccessToken) (authRequest : BaseAuthRequest)
    (correlationId : String) : AuthenticationResult :=
  { account := acct
    scopes := authRequest.scopes
    accessToken := accessToken.secret
    idToken := idToken.secret
    expiresOn := accessToken.expiresOn
    correlationId := correlationId
    fromCache := true }

/-- The start event emitted at the top of both entry points
(`emitEvent(ACQUIRE_TOKEN_START, interaction, validRequest)`). -/
def startEvent (interaction : InteractionKind) (validRequest : TokenRequest) :
    EventMessage :=
  { kind := EventKind.acquireTokenStart
    interaction := interaction
    payload := EventPayload.ofRequest validRequest
    error := none }

/-- A success event carrying the result
(`emitEvent(ACQUIRE_TOKEN_SUCCESS, interaction, result)`). -/
def successEvent (interaction : InteractionKind)
    (result : AuthenticationResult) : EventMessage :=
  { kind := EventKind.acquireTokenSuccess
    interaction := interaction
    payload := EventPayload.ofResult result
    error := none }

/-- A failure event with a null payload and an optional raw error
(`emitEvent(ACQUIRE_TOKEN_FAILURE, interaction, null, e?)`). -/
def failureEvent (interaction : InteractionKind) (e : Option RawError) :
    EventMessage :=
  { kind := EventKind.acquireTokenFailure
    interaction := interaction
    payload := EventPayload.nullPayload
    error := e }

/-- `ensureValidRequest`: return the request unchanged when it already has a
correlation identifier, else spread it with a freshly generated guid. -/
def ensureValidRequest (env : Env) (request : TokenRequest) (s : St) :
    TokenRequest × St :=
  match request.correlationId with
  | some _ => (request, s)
  | none =>
    let g := newGuid env s
    ({ request with correlationId := some g.1 }, g.2)

/-- The correlation identifier used inside `acquireTokenFromCacheInternal`:
`request.correlationId || this.browserCrypto.createNewGuid()`. -/
def pickCorrelationId (env : Env) (request : TokenRequest) (s : St) :
    String × St :=
  match request.correlationId with
  | some c => (c, s)
  | none => newGuid env s

/-- The normalized request built inside `acquireTokenFromCacheInternal`:
spread of the request with correlationId `c`, authority defaulted to the
account's environment, and scopes defaulted to the OIDC minimum set when the
caller supplied none. -/
def normalizedRequest (request : TokenRequest) (acct : AccountInfo)
    (c : String) : BaseAuthRequest :=
  { scopes := if request.scopes.isEmpty then OIDC_DEFAULT_SCOPES
              else request.scopes
    account := request.account
    authority := request.authority.getD acct.environment
    correlationId := c }

/-- Account resolution of `acquireTokenFromCacheInternal`:
`request.account || getAccountByHomeId(bridge accountContext homeAccountId)`. -/
def resolveAccountSrc (env : Env) (request : TokenRequest) (store : Store) :
    Option AccountInfo :=
  match request.account with
  | some a => some a
  | none => getAccountByHomeId env.bridgeHomeAccountId store

/-- `acquireTokenFromCacheInternal`: resolve the account, normalize the
request, fetch and freshness-check the access token (purging the account's
cache context on staleness), fetch the id token, and assemble a result from
the cached tokens. -/
def acquireTokenFromCacheInternal (env : Env) (request : TokenRequest)
    (s0 : St) : Option AuthenticationResult × St :=
  match resolveAccountSrc env request s0.store with
  | none => (none, s0)
  | some acct =>
    let p := pickCorrelationId env request s0
    let authRequest := normalizedRequest request acct p.1
    let s1 := pushTrace p.2 (TraceItem.tokenStorageRead authRequest.correlationId)
    match env.getAccessToken acct authRequest with
    | none => (none, s1)
    | some cat =>
      if wasClockTurnedBack env.now cat.cachedAt
          || isTokenExpired env.now cat.expiresOn env.renewalOffset then
        (none, { s1 with store := removeAccountContext acct s1.store })
      else
        match env.getIdToken acct acct.tenantId with
        | none => (none, s1)
        | some cit =>
          (some (fromCachedTokens acct cit cat authRequest
                  authRequest.correlationId), s1)

/-- `acquireTokenFromCache`: wrap the internal lookup in an
AcquireTokenSilent measurement, emitting ACQUIRE_TOKEN_SUCCESS on a hit and
ACQUIRE_TOKEN_FAILURE (null payload, no error) on a miss. -/
def acquireTokenFromCache (env : Env) (request : TokenRequest) (s0 : St) :
    Option AuthenticationResult × St :=
  let s1 := pushTrace s0
    (TraceItem.measStart MeasName.acquireTokenSilentMeas
      (request.correlationId.getD ""))
  let r := acquireTokenFromCacheInternal env request s1
  match r.1 with
  | some result =>
    let s2 := pushTrace r.2
      (TraceItem.event (successEvent InteractionKind.silent result))
    let s3 := pushTrace s2
      (TraceItem.measEnd MeasName.acquireTokenSilentMeas true false)
    (some result, s3)
  | none =>
    let s2 := pushTrace r.2
      (TraceItem.event (failureEvent InteractionKind.silent none))
    let s3 := pushTrace s2
      (TraceItem.measEnd MeasName.acquireTokenSilentMeas false false)
    (none, s3)

/-- `hydrateCache` (controller method): upsert the account entity derived
from the result unconditionally, then delegate token persistence to the
storage collaborator (which may reject). -/
def hydrateCache (env : Env) (result : AuthenticationResult)
    (request : TokenRequest) (s : St) : Except RawError Unit × St :=
  let s1 := { s with store := setAccountSt result.account s.store }
  let h := storageHydrate env result request s1.store
  (h.1, { s1 with store := h.2 })

/-- The validated request and state after `ensureValidRequest` at the top of
`acquireTokenSilentInternal`. -/
def silentValidated (env : Env) (request : TokenRequest) (s0 : St) :
    TokenRequest × St :=
  ensureValidRequest env request s0

/-- State after the ACQUIRE_TOKEN_START event of the silent flow. -/
def silentAfterStart (env : Env) (request : TokenRequest) (s0 : St) : St :=
  pushTrace (silentValidated env request s0).2
    (TraceItem.event
      (startEvent InteractionKind.silent (silentValidated env request s0).1))

/-- Outcome and state of the cache-check step of the silent flow. -/
def silentCacheResult (env : Env) (request : TokenRequest) (s0 : St) :
    Option AuthenticationResult × St :=
  acquireTokenFromCache env (silentValidated env request s0).1
    (silentAfterStart env request s0)

/-- The bridge wire request of the silent flow. -/
def silentNaaRequest (env : Env) (request : TokenRequest) (s0 : St) :
    NaaTokenRequest :=
  toNaaTokenRequest (silentValidated env request s0).1

/-- `acquireTokenSilentInternal`: validate the request, emit the start event,
try the cache; on a hit emit success and return, else run the SsoSilent
measurement around the silent bridge call, convert the response, hydrate the
cache with the original request, set the active account, emit success; any
exception in the try-block is converted via `fromBridgeError` after the
failure event and the failed measurement end. -/
def acquireTokenSilentInternal (env : Env) (request : TokenRequest)
    (s0 : St) : Except AuthError AuthenticationResult × St :=
  let validRequest := (silentValidated env request s0).1
  let rc := silentCacheResult env request s0
  match rc.1 with
  | some result =>
    (Except.ok result,
      pushTrace rc.2
        (TraceItem.event (successEvent InteractionKind.silent result)))
  | none =>
    let s3 := pushTrace rc.2
      (TraceItem.measStart MeasName.ssoSilentMeas
        (validRequest.correlationId.getD ""))
    let naaRequest := silentNaaRequest env request s0
    let reqTimestamp := env.now
    let s4 := pushTrace s3 (TraceItem.bridgeCall true naaRequest)
    match env.bridgeSilent naaRequest with
    | Except.error e =>
      (Except.error (fromBridgeError e),
        pushTrace
          (pushTrace s4
            (TraceItem.event (failureEvent InteractionKind.silent (some e))))
          (TraceItem.measEnd MeasName.ssoSilentMeas false true))
    | Except.ok response =>
      let result := fromNaaTokenResponse naaRequest response reqTimestamp
      let h := hydrateCache env result request s4
      match h.1 with
      | Except.error e =>
        (Except.error (fromBridgeError e),
          pushTrace
            (pushTrace h.2
              (TraceItem.event
                (failureEvent InteractionKind.silent (some e))))
            (TraceItem.measEnd MeasName.ssoSilentMeas false true))
      | Except.ok _ =>
        let s5 := setActiveAccountSt result.account h.2
        let s6 := pushTrace s5
          (TraceItem.event (successEvent InteractionKind.silent result))
        (Except.ok result,
          pushTrace s6 (TraceItem.measEnd MeasName.ssoSilentMeas true false))

/-- `acquireTokenSilent` delegates to `acquireTokenSilentInternal`. -/
def acquireTokenSilent (env : Env) (request : TokenRequest) (s0 : St) :
    Except AuthError AuthenticationResult × St :=
  acquireTokenSilentInternal env request s0

/-- `acquireTokenInteractive`: validate the request, emit the start event,
run the AcquireTokenPopup measurement around the interactive bridge call,
convert the response, hydrate the cache with the original request, set the
active account, emit success; exceptions are converted via `fromBridgeError`
after the failure event and the failed measurement end. -/
def acquireTokenInteractive (env : Env) (request : TokenRequest) (s0 : St) :
    Except AuthError AuthenticationResult × St :=
  let v := ensureValidRequest env request s0
  let validRequest := v.1
  let s1 := pushTrace v.2
    (TraceItem.event (startEvent InteractionKind.popup validRequest))
  let s2 := pushTrace s1
    (TraceItem.measStart MeasName.acquireTokenPopupMeas
      (validRequest.correlationId.getD ""))
  let naaRequest := toNaaTokenRequest validRequest
  let reqTimestamp := env.now
  let s3 := pushTrace s2 (TraceItem.bridgeCall false naaRequest)
  match env.bridgeInteractive naaRequest with
  | Except.error e =>
    (Except.error (fromBridgeError e),
      pushTrace
        (pushTrace s3
          (TraceItem.event (failureEvent InteractionKind.popup (some e))))
        (TraceItem.measEnd MeasName.acquireTokenPopupMeas false true))
  | Except.ok response =>
    let result := fromNaaTokenResponse naaRequest response reqTimestamp
    let h := hydrateCache env result request s3
    match h.1 with
    | Except.error e =>
      (Except.error (fromBridgeError e),
        pushTrace
          (pushTrace h.2
            (TraceItem.event (failureEvent InteractionKind.popup (some e))))
          (TraceItem.measEnd MeasName.acquireTokenPopupMeas false true))
    | Except.ok _ =>
      let s4 := setActiveAccountSt result.account h.2
      let s5 := pushTrace s4
        (TraceItem.event (successEvent InteractionKind.popup result))
      (Except.ok result,
        pushTrace s5
          (TraceItem.measEnd MeasName.acquireTokenPopupMeas true false))

/-- `acquireTokenPopup` delegates to `acquireTokenInteractive`. -/
def acquireTokenPopup (env : Env) (request : TokenRequest) (s0 : St) :
    Except AuthError AuthenticationResult × St :=
  acquireTokenInteractive env request s0

/-- `acquireTokenRedirect`: unsupported in nested app auth; throws
immediately, before any event, measurement or storage access. -/
def acquireTokenRedirect (_request : TokenRequest) (s : St) :
    Except AuthError Unit × St :=
  (Except.error AuthError.unsupportedOperation, s)

/-- `acquireTokenByCode`: unsupported in nested app auth. -/
def acquireTokenByCode (_request : TokenRequest) (s : St) :
    Except AuthError AuthenticationResult × St :=
  (Except.error AuthError.unsupportedOperation, s)

/-- `acquireTokenNative`: unsupported in nested app auth. -/
def acquireTokenNative (_request : TokenRequest) (s : St) :
    Except AuthError AuthenticationResult × St :=
  (Except.error AuthError.unsupportedOperation, s)

/-- `acquireTokenByRefreshToken`: unsupported in nested app auth. -/
def acquireTokenByRefreshToken (_request : TokenRequest) (s : St) :
    Except AuthError AuthenticationResult × St :=
  (Except.error AuthError.unsupportedOperation, s)

/-- `loginRedirect`: unsupported in nested app auth. -/
def loginRedirect (_request : Option TokenRequest) (s : St) :
    Except AuthError Unit × St :=
  (Except.error AuthError.unsupportedOperation, s)

/-- `logout`: unsupported in nested app auth. -/
def logout (_request : Option TokenRequest) (s : St) :
    Except AuthError Unit × St :=
  (Except.error AuthError.unsupportedOperation, s)

/-- `logoutRedirect`: unsupported in nested app auth. -/
def logoutRedirect (_request : Option TokenRequest) (s : St) :
    Except AuthError Unit × St :=
  (Except.error AuthError.unsupportedOperation, s)

/-- `logoutPopup`: unsupported in nested app auth. -/
def logoutPopup (_request : Option TokenRequest) (s : St) :
    Except AuthError Unit × St :=
  (Except.error AuthError.unsupportedOperation, s)

/-- `addPerformanceCallback`: unsupported in nested app auth. -/
def addPerformanceCallback (s : St) : Except AuthError String × St :=
  (Except.error AuthError.unsupportedOperation, s)

/-- `removePerformanceCallback`: unsupported in nested app auth. -/
def removePerformanceCallback (_callbackId : String) (s : St) :
    Except AuthError Bool × St :=
  (Except.error AuthError.unsupportedOperation, s)

/-- `clearCache`: unsupported in nested app auth. -/
def clearCache (s : St) : Except AuthError Unit × St :=
  (Except.error AuthError.unsupportedOperation, s)

/-- `getTokenCache`: unsupported in nested app auth. -/
def getTokenCache (s : St) : Except AuthError Unit × St :=
  (Except.error AuthError.unsupportedOperation, s)

/-- The correlation identifier a request effectively carries after
`ensureValidRequest`: its own if present, else the next guid of the
stream. -/
def effCorrelationId (env : Env) (request : TokenRequest) (s : St) : String :=
  match request.correlationId with
  | some c => c
  | none => env.guid s.guidCount

/-- The hydrate-then-activate step as performed by the orchestrator after a
successful bridge round trip (`hydrateCache` followed by
`setActiveAccount(result.account)`), ignoring the success/failure of the
storage-level persistence. -/
def hydrateAndActivate (env : Env) (result : AuthenticationResult)
    (request : TokenRequest) (s : St) : St :=
  setActiveAccountSt result.account (hydrateCache env result request s).2

theorem pushTrace_store (s : St) (t : TraceItem) :
    (pushTrace s t).store = s.store := rfl

theorem pushTrace_guidCount (s : St) (t : TraceItem) :
    (pushTrace s t).guidCount = s.guidCount := rfl

theorem pickCorrelationId_store (env : Env) (r : TokenRequest) (s : St) :
    (pickCorrelationId env r s).2.store = s.store := by
  unfold pickCorrelationId newGuid
  cases r.correlationId <;> rfl

theorem pickCorrelationId_trace (env : Env) (r : TokenRequest) (s : St) :
    (pickCorrelationId env r s).2.trace = s.trace := by
  unfold pickCorrelationId newGuid
  cases r.correlationId <;> rfl

theorem pickCorrelationId_some (env : Env) (r : TokenRequest) (s : St)
    (c : String) (h : r.correlationId = some c) :
    pickCorrelationId env r s = (c, s) := by
  unfold pickCorrelationId
  rw [h]

theorem ensureValidRequest_some (env : Env) (r : TokenRequest) (s : St)
    (c : String) (h : r.correlationId = some c) :
    ensureValidRequest env r s = (r, s) := by
  unfold ensureValidRequest
  rw [h]

theorem ensureValidRequest_none (env : Env) (r : TokenRequest) (s : St)
    (h : r.correlationId = none) :
    ensureValidRequest env r s =
      ({ r with correlationId := some (env.guid s.guidCount) },
        { s with guidCount := s.guidCount + 1 }) := by
  unfold ensureValidRequest newGuid
  rw [h]

theorem ensureValidRequest_correlationId (env : Env) (r : TokenRequest)
    (s : St) :
    (ensureValidRequest env r s).1.correlationId =
      some (effCorrelationId env r s) := by
  unfold ensureValidRequest effCorrelationId newGuid
  cases h : r.correlationId <;> simp [h]

theorem ensureValidRequest_store (env : Env) (r : TokenRequest) (s : St) :
    (ensureValidRequest env r s).2.store = s.store := by
  unfold ensureValidRequest newGuid
  cases r.correlationId <;> rfl

theorem ensureValidRequest_trace (env : Env) (r : TokenRequest) (s : St) :
    (ensureValidRequest env r s).2.trace = s.trace := by
  unfold ensureValidRequest newGuid
  cases r.correlationId <;> rfl

theorem upsertBy_idem (sameKey : α → α → Bool)
    (href : ∀ x, sameKey x x = true) (a : α) (l : List α) :
    upsertBy sameKey a (upsertBy sameKey a l) = upsertBy sameKey a l := by
  induction l with
  | nil => simp [upsertBy, href a]
  | cons b rest ih =>
    by_cases hb : sameKey b a = true
    · simp [upsertBy, hb, href a]
    · simp [upsertBy, hb, ih]

/-- C5. Every unsupported operation (acquireTokenRedirect,
acquireTokenByCode, acquireTokenNative, acquireTokenByRefreshToken,
loginRedirect, logout, logoutRedirect, logoutPopup, addPerformanceCallback,
removePerformanceCallback, clearCache, getTokenCache) fails immediately with
the dedicated unsupported-operation error and returns the state untouched:
no event, no measurement, no storage mutation. -/
theorem unsupportedOps_fail_without_effects :
    (∀ r s, acquireTokenRedirect r s =
      (Except.error AuthError.unsupportedOperation, s)) ∧
    (∀ r s, acquireTokenByCode r s =
      (Except.error AuthError.unsupportedOperation, s)) ∧
    (∀ r s, acquireTokenNative r s =
      (Except.error AuthError.unsupportedOperation, s)) ∧
    (∀ r s, acquireTokenByRefreshToken r s =
      (Except.error AuthError.unsupportedOperation, s)) ∧
    (∀ r s, loginRedirect r s =
      (Except.error AuthError.unsupportedOperation, s)) ∧
    (∀ r s, logout r s =
      (Except.error AuthError.unsupportedOperation, s)) ∧
    (∀ r s, logoutRedirect r s =
      (Except.error AuthError.unsupportedOperation, s)) ∧
    (∀ r s, logoutPopup r s =
      (Except.error AuthError.unsupportedOperation, s)) ∧
    (∀ s, addPerformanceCallback s =
      (Except.error AuthError.unsupportedOperation, s)) ∧
    (∀ i s, removePerformanceCallback i s =
      (Except.error AuthError.unsupportedOperation, s)) ∧
    (∀ s, clearCache s =
      (Except.error AuthError.unsupportedOperation, s)) ∧
    (∀ s, getTokenCache s =
      (Except.error AuthError.unsupportedOperation, s)) := by
  refine ⟨fun _ _ => rfl, fun _ _ => rfl, fun _ _ => rfl, fun _ _ => rfl,
    fun _ _ => rfl, fun _ _ => rfl, fun _ _ => rfl, fun _ _ => rfl,
    fun _ => rfl, fun _ _ => rfl, fun _ => rfl, fun _ => rfl⟩

theorem upsertAccount_idem (a : AccountInfo) (l : List AccountInfo) :
    upsertBy (fun x y => x.homeAccountId == y.homeAccountId) a
        (upsertBy (fun x y => x.homeAccountId == y.homeAccountId) a l) =
      upsertBy (fun x y => x.homeAccountId == y.homeAccountId) a l :=
  upsertBy_idem _ (fun x => by simp) a l

theorem upsertTokenEntry_idem (a : TokenEntry) (l : List TokenEntry) :
    upsertBy
        (fun x y => x.homeAccountId == y.homeAccountId
          && x.tenantId == y.tenantId && x.scopes == y.scopes) a
        (upsertBy
          (fun x y => x.homeAccountId == y.homeAccountId
            && x.tenantId == y.tenantId && x.scopes == y.scopes) a l) =
      upsertBy
        (fun x y => x.homeAccountId == y.homeAccountId
          && x.tenantId == y.tenantId && x.scopes == y.scopes) a l :=
  upsertBy_idem _ (fun x => by simp) a l

/-- C8. hydrateCache is idempotent: performing the orchestrator's
hydrate-then-activate step twice with the same result and request yields
exactly the same state (in particular the same active account and token
cache) as performing it once. -/
theorem hydrateCache_idempotent (env : Env) (result : AuthenticationResult)
    (request : TokenRequest) (s : St) :
    hydrateAndActivate env result request
        (hydrateAndActivate env result request s) =
      hydrateAndActivate env result request s := by
  unfold hydrateAndActivate hydrateCache storageHydrate setActiveAccountSt
    setAccountSt
  cases env.storageHydrateError with
  | some e =>
    simp [upsertAccount_idem, upsertTokenEntry_idem]
  | none =>
    simp [upsertAccount_idem, upsertTokenEntry_idem]

/-- A sample stored account used to instantiate theorems with hypotheses. -/
def acct0 : AccountInfo :=
  { homeAccountId := "home1"
    localAccountId := "local1"
    tenantId := "tid1"
    environment := "login.example.net"
    username := "user at example" }

/-- A sample cached access token (cached at 50, expiring at 1000). -/
def cat0 : CachedAccessToken :=
  { secret := "at-secret"
    cachedAt := 50
    expiresOn := 1000
    homeAccountId := "home1"
    tenantId := "tid1"
    target := ["scopeA"] }

/-- A sample cached id token. -/
def cit0 : CachedIdToken :=
  { secret := "it-secret"
    homeAccountId := "home1"
    tenantId := "tid1" }

/-- A sample bridge token response. -/
def tok0 : NaaTokenResponse :=
  { accessToken := "new-at"
    idToken := "new-it"
    expiresIn := 3600
    account := acct0 }

/-- A sample initial store holding the sample account and no tokens. -/
def store0 : Store :=
  { accounts := [acct0], tokens := [], activeAccount := none }

/-- A sample initial state. -/
def st0 : St := { store := store0, trace := [], guidCount := 0 }

/-- A sample request carrying a correlation identifier and one scope. -/
def req0 : TokenRequest :=
  { scopes := ["scopeA"]
    account := none
    authority := none
    correlationId := some "corr-1" }

/-- A sample request with no correlation identifier, no scopes, no account. -/
def reqNoCorr : TokenRequest :=
  { scopes := []
    account := none
    authority := none
    correlationId := none }

/-- A baseline environment: clock at 100, no renewal offset, bridge context
reporting the sample account, empty token-lookup contract, failing bridge,
succeeding storage hydration. -/
def baseEnv : Env :=
  { guid := fun n => "guid-" ++ toString n
    now := 100
    renewalOffset := 0
    bridgeHomeAccountId := "home1"
    getAccessToken := fun _ _ => none
    getIdToken := fun _ _ => none
    bridgeSilent := fun _ => Except.error (RawError.bridge "code" "msg")
    bridgeInteractive := fun _ => Except.error (RawError.bridge "code" "msg")
    storageHydrateError := none }

theorem silentValidated_correlationId (env : Env) (request : TokenRequest)
    (s0 : St) :
    (silentValidated env request s0).1.correlationId =
      some (effCorrelationId env request s0) :=
  ensureValidRequest_correlationId env request s0

theorem ensureValidRequest_account (env : Env) (r : TokenRequest) (s : St) :
    (ensureValidRequest env r s).1.account = r.account := by
  unfold ensureValidRequest newGuid
  cases r.correlationId <;> rfl

theorem resolveAccountSrc_validated (env : Env) (r : TokenRequest)
    (s : St) (store : Store) :
    resolveAccountSrc env (ensureValidRequest env r s).1 store =
      resolveAccountSrc env r store := by
  unfold resolveAccountSrc
  rw [ensureValidRequest_account]

theorem normalizedRequest_validated (env : Env) (r : TokenRequest) (s : St)
    (acct : AccountInfo) (c : String) :
    normalizedRequest (ensureValidRequest env r s).1 acct c =
      normalizedRequest r acct c := by
  unfold ensureValidRequest newGuid normalizedRequest
  cases r.correlationId <;> rfl

/-- The cache lookup hits: all four subchecks pass; it returns a result
assembled by `fromCachedTokens` and only appends the token-storage read to
the trace. -/
theorem acquireTokenFromCacheInternal_hit (env : Env) (r : TokenRequest)
    (s : St) (acct : AccountInfo) (cat : CachedAccessToken)
    (cit : CachedIdToken) (c : String)
    (hc : r.correlationId = some c)
    (hacct : resolveAccountSrc env r s.store = some acct)
    (hat : env.getAccessToken acct (normalizedRequest r acct c) = some cat)
    (hcb : wasClockTurnedBack env.now cat.cachedAt = false)
    (hexp : isTokenExpired env.now cat.expiresOn env.renewalOffset = false)
    (hit : env.getIdToken acct acct.tenantId = some cit) :
    acquireTokenFromCacheInternal env r s =
      (some (fromCachedTokens acct cit cat (normalizedRequest r acct c) c),
        pushTrace s (TraceItem.tokenStorageRead c)) := by
  unfold acquireTokenFromCacheInternal
  rw [hacct, pickCorrelationId_some env r s c hc]
  simp only [hat, hcb, hexp, hit, Bool.or_self]
  rfl

/-- The cache lookup misses because storage has no matching access token;
the state only gains the token-storage read. -/
theorem acquireTokenFromCacheInternal_missToken (env : Env)
    (r : TokenRequest) (s : St) (acct : AccountInfo) (c : String)
    (hc : r.correlationId = some c)
    (hacct : resolveAccountSrc env r s.store = some acct)
    (hat : env.getAccessToken acct (normalizedRequest r acct c) = none) :
    acquireTokenFromCacheInternal env r s =
      (none, pushTrace s (TraceItem.tokenStorageRead c)) := by
  unfold acquireTokenFromCacheInternal
  rw [hacct, pickCorrelationId_some env r s c hc]
  simp only [hat]
  rfl

/-- The cache lookup misses because no account resolves; the state is
returned untouched (token storage is never consulted). -/
theorem acquireTokenFromCacheInternal_noAccount (env : Env)
    (r : TokenRequest) (s : St)
    (hacct : resolveAccountSrc env r s.store = none) :
    acquireTokenFromCacheInternal env r s = (none, s) := by
  unfold acquireTokenFromCacheInternal
  rw [hacct]

/-- The wrapper around the lookup on a hit: start the AcquireTokenSilent
measurement, emit ACQUIRE_TOKEN_SUCCESS with the result, end the measurement
successfully. -/
theorem acquireTokenFromCache_eq_some (env : Env) (r : TokenRequest)
    (s : St) (res : AuthenticationResult) (s' : St)
    (h : acquireTokenFromCacheInternal env r
        (pushTrace s
          (TraceItem.measStart MeasName.acquireTokenSilentMeas
            (r.correlationId.getD ""))) = (some res, s')) :
    acquireTokenFromCache env r s =
      (some res,
        pushTrace
          (pushTrace s'
            (TraceItem.event (successEvent InteractionKind.silent res)))
          (TraceItem.measEnd MeasName.acquireTokenSilentMeas true false)) := by
  unfold acquireTokenFromCache
  simp only [h]

/-- The wrapper around the lookup on a miss: emit ACQUIRE_TOKEN_FAILURE with
a null payload and no error, end the measurement as failed. -/
theorem acquireTokenFromCache_eq_none (env : Env) (r : TokenRequest)
    (s : St) (s' : St)
    (h : acquireTokenFromCacheInternal env r
        (pushTrace s
          (TraceItem.measStart MeasName.acquireTokenSilentMeas
            (r.correlationId.getD ""))) = (none, s')) :
    acquireTokenFromCache env r s =
      (none,
        pushTrace
          (pushTrace s'
            (TraceItem.event (failureEvent InteractionKind.silent none)))
          (TraceItem.measEnd MeasName.acquireTokenSilentMeas false false)) := by
  unfold acquireTokenFromCache
  simp only [h]

/-- The silent orchestrator on a cache hit: emit ACQUIRE_TOKEN_SUCCESS once
more with the same result and return it; no bridge call, no hydration. -/
theorem acquireTokenSilentInternal_eq_hit (env : Env)
    (request : TokenRequest) (s0 : St) (res : AuthenticationResult)
    (s' : St) (h : silentCacheResult env request s0 = (some res, s')) :
    acquireTokenSilentInternal env request s0 =
      (Except.ok res,
        pushTrace s'
          (TraceItem.event (successEvent InteractionKind.silent res))) := by
  unfold acquireTokenSilentInternal
  simp only [h]

/-- The silent orchestrator on a cache miss followed by a bridge failure:
the raised raw error is converted through `fromBridgeError`, after emitting
the failure event with the raw error and ending the SsoSilent measurement as
failed. -/
theorem acquireTokenSilentInternal_eq_bridgeError (env : Env)
    (request : TokenRequest) (s0 : St) (s' : St) (e : RawError)
    (h : silentCacheResult env request s0 = (none, s'))
    (he : env.bridgeSilent (silentNaaRequest env request s0) =
      Except.error e) :
    acquireTokenSilentInternal env request s0 =
      (Except.error (fromBridgeError e),
        pushTrace
          (pushTrace
            (pushTrace
              (pushTrace s'
                (TraceItem.measStart MeasName.ssoSilentMeas
                  (effCorrelationId env request s0)))
              (TraceItem.bridgeCall true (silentNaaRequest env request s0)))
            (TraceItem.event
              (failureEvent InteractionKind.silent (some e))))
          (TraceItem.measEnd MeasName.ssoSilentMeas false true)) := by
  unfold acquireTokenSilentInternal
  simp only [h, he, silentValidated_correlationId, Option.getD_some]

/-- The silent orchestrator on a cache miss, successful bridge call, but
failing storage-level hydration: the account upsert of `hydrateCache` has
already happened when the raised error is converted and rethrown after the
failure event and the failed measurement end. -/
theorem acquireTokenSilentInternal_eq_hydrateError (env : Env)
    (request : TokenRequest) (s0 : St) (s' : St) (response : NaaTokenResponse)
    (e : RawError)
    (h : silentCacheResult env request s0 = (none, s'))
    (hok : env.bridgeSilent (silentNaaRequest env request s0) =
      Except.ok response)
    (hhe : env.storageHydrateError = some e) :
    acquireTokenSilentInternal env request s0 =
      (Except.error (fromBridgeError e),
        pushTrace
          (pushTrace
            ({ pushTrace
                (pushTrace s'
                  (TraceItem.measStart MeasName.ssoSilentMeas
                    (effCorrelationId env request s0)))
                (TraceItem.bridgeCall true
                  (silentNaaRequest env request s0)) with
              store := setAccountSt
                (fromNaaTokenResponse (silentNaaRequest env request s0)
                  response env.now).account s'.store })
            (TraceItem.event (failureEvent InteractionKind.silent (some e))))
          (TraceItem.measEnd MeasName.ssoSilentMeas false true)) := by
  unfold acquireTokenSilentInternal hydrateCache storageHydrate
  simp only [h, hok, hhe, silentValidated_correlationId, Option.getD_some]
  rfl

/-- The silent orchestrator on a cache miss and a fully successful bridge
round trip: hydrate (account upsert + token persistence), set the active
account, emit success, end the measurement successfully. -/
theorem acquireTokenSilentInternal_eq_bridgeSuccess (env : Env)
    (request : TokenRequest) (s0 : St) (s' : St)
    (response : NaaTokenResponse)
    (h : silentCacheResult env request s0 = (none, s'))
    (hok : env.bridgeSilent (silentNaaRequest env request s0) =
      Except.ok response)
    (hhe : env.storageHydrateError = none) :
    acquireTokenSilentInternal env request s0 =
      (Except.ok
          (fromNaaTokenResponse (silentNaaRequest env request s0) response
            env.now),
        pushTrace
          (pushTrace
            (setActiveAccountSt
              (fromNaaTokenResponse (silentNaaRequest env request s0)
                response env.now).account
              { pushTrace
                  (pushTrace s'
                    (TraceItem.measStart MeasName.ssoSilentMeas
                      (effCorrelationId env request s0)))
                  (TraceItem.bridgeCall true
                    (silentNaaRequest env request s0)) with
                store := (storageHydrate env
                  (fromNaaTokenResponse (silentNaaRequest env request s0)
                    response env.now)
                  request
                  (setAccountSt
                    (fromNaaTokenResponse (silentNaaRequest env request s0)
                      response env.now).account s'.store)).2 })
            (TraceItem.event
              (successEvent InteractionKind.silent
                (fromNaaTokenResponse (silentNaaRequest env request s0)
                  response env.now))))
          (TraceItem.measEnd MeasName.ssoSilentMeas true false)) := by
  unfold acquireTokenSilentInternal hydrateCache
  simp only [h, hok, silentValidated_correlationId, Option.getD_some]
  unfold storageHydrate
  simp only [hhe]
  rfl

/-- The result a cache hit assembles: `fromCachedTokens` applied to the
resolved account, the two cached tokens and the normalized request. -/
def cacheHitResult (env : Env) (request : TokenRequest) (s0 : St)
    (acct : AccountInfo) (cat : CachedAccessToken) (cit : CachedIdToken) :
    AuthenticationResult :=
  fromCachedTokens acct cit cat
    (normalizedRequest request acct (effCorrelationId env request s0))
    (effCorrelationId env request s0)

/-- Full characterization of a silent run satisfied from the cache: the
returned result is assembled from the two cached tokens, the store is not
touched, and the appended trace is exactly start event, measurement start,
token-storage read, success event, measurement end, success event — in
particular no bridge call and no hydration. -/
theorem silent_cacheHit_run (env : Env) (request : TokenRequest) (s0 : St)
    (acct : AccountInfo) (cat : CachedAccessToken) (cit : CachedIdToken)
    (hacct : resolveAccountSrc env request s0.store = some acct)
    (hat : env.getAccessToken acct
        (normalizedRequest request acct (effCorrelationId env request s0))
      = some cat)
    (hcb : wasClockTurnedBack env.now cat.cachedAt = false)
    (hexp : isTokenExpired env.now cat.expiresOn env.renewalOffset = false)
    (hit : env.getIdToken acct acct.tenantId = some cit) :
    acquireTokenSilent env request s0 =
      (Except.ok (cacheHitResult env request s0 acct cat cit),
        { store := s0.store
          trace := s0.trace ++
            [TraceItem.event
              (startEvent InteractionKind.silent
                (silentValidated env request s0).1),
             TraceItem.measStart MeasName.acquireTokenSilentMeas
               (effCorrelationId env request s0),
             TraceItem.tokenStorageRead (effCorrelationId env request s0),
             TraceItem.event
               (successEvent InteractionKind.silent
                 (cacheHitResult env request s0 acct cat cit)),
             TraceItem.measEnd MeasName.acquireTokenSilentMeas true false,
             TraceItem.event
               (successEvent InteractionKind.silent
                 (cacheHitResult env request s0 acct cat cit))]
          guidCount := (silentValidated env request s0).2.guidCount }) := by
  have hc := silentValidated_correlationId env request s0
  have h1 : resolveAccountSrc env (silentValidated env request s0).1
      (pushTrace (silentAfterStart env request s0)
        (TraceItem.measStart MeasName.acquireTokenSilentMeas
          ((silentValidated env request s0).1.correlationId.getD ""))).store
      = some acct := by
    rw [pushTrace_store]
    unfold silentAfterStart
    rw [pushTrace_store]
    unfold silentValidated
    rw [resolveAccountSrc_validated, ensureValidRequest_store]
    exact hacct
  have h2 : env.getAccessToken acct
      (normalizedRequest (silentValidated env request s0).1 acct
        (effCorrelationId env request s0)) = some cat := by
    unfold silentValidated
    rw [normalizedRequest_validated]
    exact hat
  have hint := acquireTokenFromCacheInternal_hit env
    (silentValidated env request s0).1
    (pushTrace (silentAfterStart env request s0)
      (TraceItem.measStart MeasName.acquireTokenSilentMeas
        ((silentValidated env request s0).1.correlationId.getD "")))
    acct cat cit (effCorrelationId env request s0) hc h1 h2 hcb hexp hit
  have hwrap := acquireTokenFromCache_eq_some env
    (silentValidated env request s0).1 (silentAfterStart env request s0)
    _ _ hint
  have hcache : silentCacheResult env request s0 =
      (some (fromCachedTokens acct cit cat
          (normalizedRequest (silentValidated env request s0).1 acct
            (effCorrelationId env request s0))
          (effCorrelationId env request s0)),
        pushTrace
          (pushTrace
            (pushTrace
              (pushTrace (silentAfterStart env request s0)
                (TraceItem.measStart MeasName.acquireTokenSilentMeas
                  ((silentValidated env request s0).1.correlationId.getD "")))
              (TraceItem.tokenStorageRead (effCorrelationId env request s0)))
            (TraceItem.event
              (successEvent InteractionKind.silent
                (fromCachedTokens acct cit cat
                  (normalizedRequest (silentValidated env request s0).1 acct
                    (effCorrelationId env request s0))
                  (effCorrelationId env request s0)))))
          (TraceItem.measEnd MeasName.acquireTokenSilentMeas true false)) := by
    unfold silentCacheResult
    exact hwrap
  have hfinal := acquireTokenSilentInternal_eq_hit env request s0 _ _ hcache
  unfold acquireTokenSilent
  rw [hfinal]
  unfold cacheHitResult
  have hnr : normalizedRequest (silentValidated env request s0).1 acct
      (effCorrelationId env request s0) =
      normalizedRequest request acct (effCorrelationId env request s0) := by
    unfold silentValidated
    rw [normalizedRequest_validated]
  rw [hnr, hc]
  unfold silentAfterStart silentValidated
  simp [pushTrace, ensureValidRequest_trace, ensureValidRequest_store]

/-- The interactive flow when the bridge rejects: the raw error is converted
after the failure event and the failed measurement end; the store is not
touched. -/
theorem acquireTokenInteractive_eq_bridgeError (env : Env)
    (request : TokenRequest) (s0 : St) (e : RawError)
    (he : env.bridgeInteractive
        (toNaaTokenRequest (ensureValidRequest env request s0).1) =
      Except.error e) :
    acquireTokenInteractive env request s0 =
      (Except.error (fromBridgeError e),
        pushTrace
          (pushTrace
            (pushTrace
              (pushTrace
                (pushTrace (ensureValidRequest env request s0).2
                  (TraceItem.event
                    (startEvent InteractionKind.popup
                      (ensureValidRequest env request s0).1)))
                (TraceItem.measStart MeasName.acquireTokenPopupMeas
                  (effCorrelationId env request s0)))
              (TraceItem.bridgeCall false
                (toNaaTokenRequest (ensureValidRequest env request s0).1)))
            (TraceItem.event (failureEvent InteractionKind.popup (some e))))
          (TraceItem.measEnd MeasName.acquireTokenPopupMeas false true)) := by
  unfold acquireTokenInteractive
  simp only [he, ensureValidRequest_correlationId, Option.getD_some]

/-- The interactive flow when the bridge succeeds but the storage-level
hydration rejects: the account upsert of `hydrateCache` has already happened
when the error is converted and rethrown. -/
theorem acquireTokenInteractive_eq_hydrateError (env : Env)
    (request : TokenRequest) (s0 : St) (response : NaaTokenResponse)
    (e : RawError)
    (hok : env.bridgeInteractive
        (toNaaTokenRequest (ensureValidRequest env request s0).1) =
      Except.ok response)
    (hhe : env.storageHydrateError = some e) :
    acquireTokenInteractive env request s0 =
      (Except.error (fromBridgeError e),
        pushTrace
          (pushTrace
            ({ pushTrace
                (pushTrace
                  (pushTrace (ensureValidRequest env request s0).2
                    (TraceItem.event
                      (startEvent InteractionKind.popup
                        (ensureValidRequest env request s0).1)))
                  (TraceItem.measStart MeasName.acquireTokenPopupMeas
                    (effCorrelationId env request s0)))
                (TraceItem.bridgeCall false
                  (toNaaTokenRequest (ensureValidRequest env request s0).1))
              with
              store := setAccountSt
                (fromNaaTokenResponse
                  (toNaaTokenRequest (ensureValidRequest env request s0).1)
                  response env.now).account
                (ensureValidRequest env request s0).2.store })
            (TraceItem.event (failureEvent InteractionKind.popup (some e))))
          (TraceItem.measEnd MeasName.acquireTokenPopupMeas false true)) := by
  unfold acquireTokenInteractive hydrateCache storageHydrate
  simp only [hok, hhe, ensureValidRequest_correlationId, Option.getD_some]
  rfl

/-- The cache wrapper on a miss always leaves the ACQUIRE_TOKEN_FAILURE
event (null payload, no error) in its trace. -/
theorem acquireTokenFromCache_none_failureEvent (env : Env)
    (r : TokenRequest) (s s' : St)
    (h : acquireTokenFromCache env r s = (none, s')) :
    TraceItem.event (failureEvent InteractionKind.silent none) ∈
      s'.trace := by
  rcases hr : acquireTokenFromCacheInternal env r
      (pushTrace s
        (TraceItem.measStart MeasName.acquireTokenSilentMeas
          (r.correlationId.getD ""))) with ⟨ores, s''⟩
  unfold acquireTokenFromCache at h
  simp only [hr] at h
  cases ores with
  | some res => simp at h
  | none =>
    simp only [Prod.mk.injEq, true_and] at h
    rw [← h]
    simp [pushTrace]

/-- After a cache miss, the silent orchestrator always performs the silent
bridge call: the bridge-call item is in the final trace, and everything in
the miss state's trace is preserved into the final trace. -/
theorem silent_miss_bridge_monotone (env : Env) (request : TokenRequest)
    (s0 : St) (s' : St)
    (h : silentCacheResult env request s0 = (none, s')) :
    TraceItem.bridgeCall true (silentNaaRequest env request s0) ∈
      (acquireTokenSilentInternal env request s0).2.trace ∧
    (∀ t, t ∈ s'.trace →
      t ∈ (acquireTokenSilentInternal env request s0).2.trace) := by
  cases hb : env.bridgeSilent (silentNaaRequest env request s0) with
  | error e =>
    rw [acquireTokenSilentInternal_eq_bridgeError env request s0 s' e h hb]
    constructor
    · simp [pushTrace]
    · intro t ht
      simp [pushTrace, ht]
  | ok response =>
    cases hh : env.storageHydrateError with
    | some e =>
      rw [acquireTokenSilentInternal_eq_hydrateError env request s0 s'
        response e h hb hh]
      constructor
      · simp [pushTrace]
      · intro t ht
        simp [pushTrace, ht]
    | none =>
      rw [acquireTokenSilentInternal_eq_bridgeSuccess env request s0 s'
        response h hb hh]
      constructor
      · simp [pushTrace, setActiveAccountSt]
      · intro t ht
        simp [pushTrace, setActiveAccountSt, ht]

/-- An environment whose storage contract returns the sample fresh access
token and the sample id token: every lookup hits. -/
def envHit : Env :=
  { baseEnv with
    getAccessToken := fun _ _ => some cat0
    getIdToken := fun _ _ => some cit0 }

/-- C1. For every silent request whose resolved account has a fresh matching
cached access token and a matching cached id token, acquireTokenSilent
returns the AuthenticationResult assembled by fromCachedTokens from the two
cached tokens and the normalized request; the store is untouched (no cache
hydration) and the run adds no bridge call to the trace. -/
theorem acquireTokenSilent_cacheHit_noBridge (env : Env)
    (request : TokenRequest) (s0 : St) (acct : AccountInfo)
    (cat : CachedAccessToken) (cit : CachedIdToken)
    (hacct : resolveAccountSrc env request s0.store = some acct)
    (hat : env.getAccessToken acct
        (normalizedRequest request acct (effCorrelationId env request s0))
      = some cat)
    (hcb : wasClockTurnedBack env.now cat.cachedAt = false)
    (hexp : isTokenExpired env.now cat.expiresOn env.renewalOffset = false)
    (hit : env.getIdToken acct acct.tenantId = some cit) :
    (acquireTokenSilent env request s0).1 =
      Except.ok (cacheHitResult env request s0 acct cat cit) ∧
    (acquireTokenSilent env request s0).2.store = s0.store ∧
    (∀ b req, TraceItem.bridgeCall b req ∈
        (acquireTokenSilent env request s0).2.trace →
      TraceItem.bridgeCall b req ∈ s0.trace) := by
  have h := silent_cacheHit_run env request s0 acct cat cit hacct hat hcb
    hexp hit
  rw [h]
  refine ⟨rfl, rfl, ?_⟩
  intro b req hmem
  simp only [List.mem_append, List.mem_cons, List.not_mem_nil, or_false] at hmem
  rcases hmem with hmem | hmem
  · exact hmem
  · simp at hmem

/-- Witness for C1: with the sample environment whose storage returns the
fresh sample tokens, the silent call is served from cache. -/
theorem acquireTokenSilent_cacheHit_noBridge_witness :
    (acquireTokenSilent envHit req0 st0).1 =
      Except.ok (cacheHitResult envHit req0 st0 acct0 cat0 cit0) ∧
    (acquireTokenSilent envHit req0 st0).2.store = st0.store ∧
    (∀ b req, TraceItem.bridgeCall b req ∈
        (acquireTokenSilent envHit req0 st0).2.trace →
      TraceItem.bridgeCall b req ∈ st0.trace) :=
  acquireTokenSilent_cacheHit_noBridge envHit req0 st0 acct0 cat0 cit0
    (by decide) rfl (by decide) (by decide) rfl

/-- C7. Account resolution for the cache lookup prefers `request.account`,
else falls back to the stored account matching the bridge-reported home
account id; when neither resolves, the lookup returns absent immediately
(state untouched, token storage never consulted), and the silent
orchestrator nevertheless proceeds to the bridge call. -/
theorem absentAccount_lookup_shortCircuit (env : Env)
    (request : TokenRequest) (st : Store) (s s0 : St) :
    (∀ a, request.account = some a →
      resolveAccountSrc env request st = some a) ∧
    (request.account = none →
      resolveAccountSrc env request st =
        getAccountByHomeId env.bridgeHomeAccountId st) ∧
    (resolveAccountSrc env request s.store = none →
      acquireTokenFromCacheInternal env request s = (none, s)) ∧
    (resolveAccountSrc env request s0.store = none →
      TraceItem.bridgeCall true (silentNaaRequest env request s0) ∈
        (acquireTokenSilent env request s0).2.trace) := by
  refine ⟨?_, ?_, ?_, ?_⟩
  · intro a ha
    unfold resolveAccountSrc
    rw [ha]
  · intro ha
    unfold resolveAccountSrc
    rw [ha]
  · intro hnone
    exact acquireTokenFromCacheInternal_noAccount env request s hnone
  · intro hnone
    have hnone2 : resolveAccountSrc env (silentValidated env request s0).1
        (pushTrace (silentAfterStart env request s0)
          (TraceItem.measStart MeasName.acquireTokenSilentMeas
            ((silentValidated env request s0).1.correlationId.getD
              ""))).store = none := by
      rw [pushTrace_store]
      unfold silentAfterStart
      rw [pushTrace_store]
      unfold silentValidated
      rw [resolveAccountSrc_validated, ensureValidRequest_store]
      exact hnone
    have hint := acquireTokenFromCacheInternal_noAccount env
      (silentValidated env request s0).1
      (pushTrace (silentAfterStart env request s0)
        (TraceItem.measStart MeasName.acquireTokenSilentMeas
          ((silentValidated env request s0).1.correlationId.getD "")))
      hnone2
    have hmiss : silentCacheResult env request s0 =
        (none,
          pushTrace
            (pushTrace
              (pushTrace (silentAfterStart env request s0)
                (TraceItem.measStart MeasName.acquireTokenSilentMeas
                  ((silentValidated env request s0).1.correlationId.getD
                    "")))
              (TraceItem.event (failureEvent InteractionKind.silent none)))
            (TraceItem.measEnd MeasName.acquireTokenSilentMeas false
              false)) := by
      unfold silentCacheResult
      exact acquireTokenFromCache_eq_none env
        (silentValidated env request s0).1 (silentAfterStart env request s0)
        _ hint
    have hmono := silent_miss_bridge_monotone env request s0 _ hmiss
    unfold acquireTokenSilent
    exact hmono.1

/-- Witness for C7: with a bridge context whose home account id matches no
stored account and no request account, the lookup short-circuits but the
silent flow still reaches the bridge. -/
theorem absentAccount_lookup_shortCircuit_witness :
    acquireTokenFromCacheInternal
        { baseEnv with bridgeHomeAccountId := "nomatch" } req0 st0 =
      (none, st0) ∧
    TraceItem.bridgeCall true
        (silentNaaRequest { baseEnv with bridgeHomeAccountId := "nomatch" }
          req0 st0) ∈
      (acquireTokenSilent { baseEnv with bridgeHomeAccountId := "nomatch" }
          req0 st0).2.trace :=
  ⟨(absentAccount_lookup_shortCircuit
      { baseEnv with bridgeHomeAccountId := "nomatch" } req0 st0.store st0
      st0).2.2.1 (by decide),
   (absentAccount_lookup_shortCircuit
      { baseEnv with bridgeHomeAccountId := "nomatch" } req0 st0.store st0
      st0).2.2.2 (by decide)⟩

/-- C10. On a silent call satisfied from the cache, ACQUIRE_TOKEN_SUCCESS is
emitted twice with the same result — once inside acquireTokenFromCache and
once again in acquireTokenSilentInternal; and on every cache miss an
ACQUIRE_TOKEN_FAILURE event is emitted even though the call proceeds to the
bridge. -/
theorem cacheHit_double_success_event (env : Env) (request : TokenRequest)
    (s0 : St) (acct : AccountInfo) (cat : CachedAccessToken)
    (cit : CachedIdToken)
    (hacct : resolveAccountSrc env request s0.store = some acct)
    (hat : env.getAccessToken acct
        (normalizedRequest request acct (effCorrelationId env request s0))
      = some cat)
    (hcb : wasClockTurnedBack env.now cat.cachedAt = false)
    (hexp : isTokenExpired env.now cat.expiresOn env.renewalOffset = false)
    (hit : env.getIdToken acct acct.tenantId = some cit) :
    ((acquireTokenSilent env request s0).2.trace =
      s0.trace ++
        [TraceItem.event
          (startEvent InteractionKind.silent
            (silentValidated env request s0).1),
         TraceItem.measStart MeasName.acquireTokenSilentMeas
           (effCorrelationId env request s0),
         TraceItem.tokenStorageRead (effCorrelationId env request s0),
         TraceItem.event
           (successEvent InteractionKind.silent
             (cacheHitResult env request s0 acct cat cit)),
         TraceItem.measEnd MeasName.acquireTokenSilentMeas true false,
         TraceItem.event
           (successEvent InteractionKind.silent
             (cacheHitResult env request s0 acct cat cit))]) ∧
    (∀ env2 req2 s2 sMiss, silentCacheResult env2 req2 s2 = (none, sMiss) →
      TraceItem.event (failureEvent InteractionKind.silent none) ∈
        (acquireTokenSilent env2 req2 s2).2.trace ∧
      TraceItem.bridgeCall true (silentNaaRequest env2 req2 s2) ∈
        (acquireTokenSilent env2 req2 s2).2.trace) := by
  constructor
  · rw [silent_cacheHit_run env request s0 acct cat cit hacct hat hcb hexp
      hit]
  · intro env2 req2 s2 sMiss hm
    have hfail : TraceItem.event
        (failureEvent InteractionKind.silent none) ∈ sMiss.trace := by
      refine acquireTokenFromCache_none_failureEvent env2
        (silentValidated env2 req2 s2).1 (silentAfterStart env2 req2 s2)
        sMiss ?_
      unfold silentCacheResult at hm
      exact hm
    have hmono := silent_miss_bridge_monotone env2 req2 s2 sMiss hm
    unfold acquireTokenSilent
    exact ⟨hmono.2 _ hfail, hmono.1⟩

/-- Witness for C10: with the hit environment the appended trace shows the
duplicated success event; with the baseline (always-miss) environment the
run emits the cache-miss failure event and still calls the bridge. -/
theorem cacheHit_double_success_event_witness :
    ((acquireTokenSilent envHit req0 st0).2.trace =
      st0.trace ++
        [TraceItem.event
          (startEvent InteractionKind.silent
            (silentValidated envHit req0 st0).1),
         TraceItem.measStart MeasName.acquireTokenSilentMeas
           (effCorrelationId envHit req0 st0),
         TraceItem.tokenStorageRead (effCorrelationId envHit req0 st0),
         TraceItem.event
           (successEvent InteractionKind.silent
             (cacheHitResult envHit req0 st0 acct0 cat0 cit0)),
         TraceItem.measEnd MeasName.acquireTokenSilentMeas true false,
         TraceItem.event
           (successEvent InteractionKind.silent
             (cacheHitResult envHit req0 st0 acct0 cat0 cit0))]) ∧
    TraceItem.event (failureEvent InteractionKind.silent none) ∈
      (acquireTokenSilent baseEnv req0 st0).2.trace ∧
    TraceItem.bridgeCall true (silentNaaRequest baseEnv req0 st0) ∈
      (acquireTokenSilent baseEnv req0 st0).2.trace :=
  ⟨(cacheHit_double_success_event envHit req0 st0 acct0 cat0 cit0
      (by decide) rfl (by decide) (by decide) rfl).1,
   (cacheHit_double_success_event envHit req0 st0 acct0 cat0 cit0
      (by decide) rfl (by decide) (by decide) rfl).2 baseEnv req0 st0
      (silentCacheResult baseEnv req0 st0).2 rfl⟩

theorem effCorrelationId_none (env : Env) (request : TokenRequest) (s : St)
    (h : request.correlationId = none) :
    effCorrelationId env request s = env.guid s.guidCount := by
  unfold effCorrelationId
  rw [h]

theorem acquireTokenFromCacheInternal_guidCount (env : Env)
    (r : TokenRequest) (s : St) (c : String)
    (hc : r.correlationId = some c) :
    (acquireTokenFromCacheInternal env r s).2.guidCount = s.guidCount := by
  unfold acquireTokenFromCacheInternal
  rw [pickCorrelationId_some env r s c hc]
  cases hr : resolveAccountSrc env r s.store with
  | none => rfl
  | some acct =>
    cases hat : env.getAccessToken acct (normalizedRequest r acct c) with
    | none => simp [hat, pushTrace]
    | some cat =>
      by_cases hex : (wasClockTurnedBack env.now cat.cachedAt
          || isTokenExpired env.now cat.expiresOn env.renewalOffset) = true
      · simp [hat, hex, pushTrace]
      · cases hid : env.getIdToken acct acct.tenantId with
        | none => simp [hat, hex, hid, pushTrace]
        | some cit => simp [hat, hex, hid, pushTrace]

theorem acquireTokenFromCacheInternal_trace_extend (env : Env)
    (r : TokenRequest) (s : St) :
    ∃ rest, (acquireTokenFromCacheInternal env r s).2.trace =
      s.trace ++ rest := by
  unfold acquireTokenFromCacheInternal
  cases hr : resolveAccountSrc env r s.store with
  | none => exact ⟨[], by simp⟩
  | some acct =>
    cases hat : env.getAccessToken acct
        (normalizedRequest r acct (pickCorrelationId env r s).1) with
    | none =>
      refine ⟨[TraceItem.tokenStorageRead (pickCorrelationId env r s).1],
        ?_⟩
      simp only [hat]
      simp [pushTrace, pickCorrelationId_trace, normalizedRequest]
    | some cat =>
      by_cases hex : (wasClockTurnedBack env.now cat.cachedAt
          || isTokenExpired env.now cat.expiresOn env.renewalOffset) = true
      · refine ⟨[TraceItem.tokenStorageRead (pickCorrelationId env r s).1],
          ?_⟩
        simp only [hat]
        simp [hex, pushTrace, pickCorrelationId_trace, normalizedRequest]
      · cases hid : env.getIdToken acct acct.tenantId with
        | none =>
          refine ⟨[TraceItem.tokenStorageRead
            (pickCorrelationId env r s).1], ?_⟩
          simp only [hat]
          simp [hex, hid, pushTrace, pickCorrelationId_trace,
            normalizedRequest]
        | some cit =>
          refine ⟨[TraceItem.tokenStorageRead
            (pickCorrelationId env r s).1], ?_⟩
          simp only [hat]
          simp [hex, hid, pushTrace, pickCorrelationId_trace,
            normalizedRequest]

theorem acquireTokenFromCache_trace_extend (env : Env) (r : TokenRequest)
    (s : St) :
    ∃ rest, (acquireTokenFromCache env r s).2.trace = s.trace ++ rest := by
  obtain ⟨rest, hrest⟩ := acquireTokenFromCacheInternal_trace_extend env r
    (pushTrace s
      (TraceItem.measStart MeasName.acquireTokenSilentMeas
        (r.correlationId.getD "")))
  rcases hr : acquireTokenFromCacheInternal env r
      (pushTrace s
        (TraceItem.measStart MeasName.acquireTokenSilentMeas
          (r.correlationId.getD ""))) with ⟨ores, s''⟩
  rw [hr] at hrest
  simp only [pushTrace] at hrest
  unfold acquireTokenFromCache
  cases ores with
  | some res =>
    refine ⟨TraceItem.measStart MeasName.acquireTokenSilentMeas
        (r.correlationId.getD "") ::
      (rest ++
        [TraceItem.event (successEvent InteractionKind.silent res),
         TraceItem.measEnd MeasName.acquireTokenSilentMeas true false]),
      ?_⟩
    simp only [hr]
    simp [pushTrace, hrest]
  | none =>
    refine ⟨TraceItem.measStart MeasName.acquireTokenSilentMeas
        (r.correlationId.getD "") ::
      (rest ++
        [TraceItem.event (failureEvent InteractionKind.silent none),
         TraceItem.measEnd MeasName.acquireTokenSilentMeas false false]),
      ?_⟩
    simp only [hr]
    simp [pushTrace, hrest]

theorem acquireTokenFromCache_some_of (env : Env) (r : TokenRequest)
    (s : St) (res : AuthenticationResult) (s'' : St)
    (h : acquireTokenFromCache env r s = (some res, s'')) :
    (acquireTokenFromCacheInternal env r
      (pushTrace s
        (TraceItem.measStart MeasName.acquireTokenSilentMeas
          (r.correlationId.getD "")))).1 = some res := by
  rcases hr : acquireTokenFromCacheInternal env r
      (pushTrace s
        (TraceItem.measStart MeasName.acquireTokenSilentMeas
          (r.correlationId.getD ""))) with ⟨ores, sX⟩
  unfold acquireTokenFromCache at h
  simp only [hr] at h
  cases ores with
  | some res2 =>
    simp only [Prod.mk.injEq] at h
    simpa using h.1
  | none => simp at h

theorem acquireTokenFromCacheInternal_some_corr (env : Env)
    (r : TokenRequest) (s : St) (c : String) (res : AuthenticationResult)
    (hc : r.correlationId = some c)
    (h : (acquireTokenFromCacheInternal env r s).1 = some res) :
    res.correlationId = c := by
  unfold acquireTokenFromCacheInternal at h
  rw [pickCorrelationId_some env r s c hc] at h
  cases hr : resolveAccountSrc env r s.store with
  | none =>
    rw [hr] at h
    simp at h
  | some acct =>
    rw [hr] at h
    cases hat : env.getAccessToken acct (normalizedRequest r acct c) with
    | none => simp [hat] at h
    | some cat =>
      by_cases hex : (wasClockTurnedBack env.now cat.cachedAt
          || isTokenExpired env.now cat.expiresOn env.renewalOffset) = true
      · simp [hat, hex] at h
      · cases hid : env.getIdToken acct acct.tenantId with
        | none => simp [hat, hex, hid] at h
        | some cit =>
          simp [hat, hex, hid] at h
          rw [← h]
          rfl

theorem silentCacheResult_guidCount (env : Env) (request : TokenRequest)
    (s0 : St) :
    (silentCacheResult env request s0).2.guidCount =
      (silentValidated env request s0).2.guidCount := by
  have hg := acquireTokenFromCacheInternal_guidCount env
    (silentValidated env request s0).1
    (pushTrace (silentAfterStart env request s0)
      (TraceItem.measStart MeasName.acquireTokenSilentMeas
        ((silentValidated env request s0).1.correlationId.getD "")))
    (effCorrelationId env request s0)
    (silentValidated_correlationId env request s0)
  rcases hr : acquireTokenFromCacheInternal env
      (silentValidated env request s0).1
      (pushTrace (silentAfterStart env request s0)
        (TraceItem.measStart MeasName.acquireTokenSilentMeas
          ((silentValidated env request s0).1.correlationId.getD "")))
      with ⟨ores, s''⟩
  rw [hr] at hg
  unfold silentCacheResult acquireTokenFromCache
  cases ores with
  | some res =>
    simp only [hr]
    simp [pushTrace] at hg ⊢
    rw [hg]
    unfold silentAfterStart
    rw [pushTrace_guidCount]
  | none =>
    simp only [hr]
    simp [pushTrace] at hg ⊢
    rw [hg]
    unfold silentAfterStart
    rw [pushTrace_guidCount]

theorem silentCacheResult_trace (env : Env) (request : TokenRequest)
    (s0 : St) :
    ∃ rest, (silentCacheResult env request s0).2.trace =
      s0.trace ++
        TraceItem.event
          (startEvent InteractionKind.silent
            (silentValidated env request s0).1) :: rest := by
  obtain ⟨rest, h⟩ := acquireTokenFromCache_trace_extend env
    (silentValidated env request s0).1 (silentAfterStart env request s0)
  refine ⟨rest, ?_⟩
  unfold silentCacheResult
  rw [h]
  unfold silentAfterStart
  simp [pushTrace, ensureValidRequest_trace, silentValidated]

theorem silentCacheResult_some_corr (env : Env) (request : TokenRequest)
    (s0 : St) (res : AuthenticationResult) (s' : St)
    (hc : silentCacheResult env request s0 = (some res, s')) :
    res.correlationId = effCorrelationId env request s0 := by
  have hsome := acquireTokenFromCache_some_of env
    (silentValidated env request s0).1 (silentAfterStart env request s0)
    res s' (by unfold silentCacheResult at hc; exact hc)
  exact acquireTokenFromCacheInternal_some_corr env
    (silentValidated env request s0).1 _ (effCorrelationId env request s0)
    res (silentValidated_correlationId env request s0) hsome

/-- Whether an emitted event carries the given correlation identifier
through its payload (the validated request or the result it holds). -/
def eventCarries (e : EventMessage) (c : String) : Prop :=
  (∃ r, e.payload = EventPayload.ofRequest r ∧ r.correlationId = some c) ∨
  (∃ r, e.payload = EventPayload.ofResult r ∧ r.correlationId = c)

/-- C6 counterexample: a concrete silent run whose request lacks a
correlation identifier and whose bridge call fails emits an
ACQUIRE_TOKEN_FAILURE event, but that event has a null payload and the raw
error, so the generated identifier does not appear in it — contradicting
the claim that the identifier appears in the emitted failure event. -/
theorem failureEvent_lacks_correlationId_cex :
    TraceItem.event
        (failureEvent InteractionKind.silent
          (some (RawError.bridge "code" "msg"))) ∈
      (acquireTokenSilent baseEnv reqNoCorr st0).2.trace ∧
    ¬ eventCarries
        (failureEvent InteractionKind.silent
          (some (RawError.bridge "code" "msg")))
        (baseEnv.guid 0) := by
  constructor
  · decide
  · intro hcarry
    rcases hcarry with ⟨r, hr, _⟩ | ⟨r, hr, _⟩ <;> simp [failureEvent] at hr

/-- C6 (amended). For every silent request arriving without a correlation
identifier, a fresh identifier is generated exactly once for the whole
operation (the guid counter advances by exactly one) and is never replaced:
the start event carries the request stamped with it, and whenever the call
returns a result — from cache or after a bridge call — that result's
correlation identifier is the generated one. The failure event, however,
carries a null payload and no identifier. -/
theorem correlationId_generated_once (env : Env) (request : TokenRequest)
    (s0 : St) (h : request.correlationId = none) :
    (acquireTokenSilent env request s0).2.guidCount = s0.guidCount + 1 ∧
    TraceItem.event
        (startEvent InteractionKind.silent
          { request with correlationId := some (env.guid s0.guidCount) }) ∈
      (acquireTokenSilent env request s0).2.trace ∧
    (∀ res, (acquireTokenSilent env request s0).1 = Except.ok res →
      res.correlationId = env.guid s0.guidCount) := by
  have hv : silentValidated env request s0 =
      ({ request with correlationId := some (env.guid s0.guidCount) },
        { s0 with guidCount := s0.guidCount + 1 }) := by
    unfold silentValidated
    exact ensureValidRequest_none env request s0 h
  have heff : effCorrelationId env request s0 = env.guid s0.guidCount :=
    effCorrelationId_none env request s0 h
  have hgc : (silentCacheResult env request s0).2.guidCount =
      s0.guidCount + 1 := by
    rw [silentCacheResult_guidCount, hv]
  obtain ⟨rest, htr⟩ := silentCacheResult_trace env request s0
  rw [hv] at htr
  unfold acquireTokenSilent
  cases ho : (silentCacheResult env request s0).1 with
  | some res =>
    have hm : silentCacheResult env request s0 =
        (some res, (silentCacheResult env request s0).2) :=
      Prod.ext_iff.mpr ⟨ho, rfl⟩
    have hcorr := silentCacheResult_some_corr env request s0 res _ hm
    rw [acquireTokenSilentInternal_eq_hit env request s0 res _ hm]
    refine ⟨?_, ?_, ?_⟩
    · simp only [pushTrace]
      exact hgc
    · simp only [pushTrace]
      rw [htr]
      simp
    · intro res2 hres2
      simp only [Except.ok.injEq] at hres2
      rw [← hres2, hcorr, heff]
  | none =>
    have hm : silentCacheResult env request s0 =
        (none, (silentCacheResult env request s0).2) :=
      Prod.ext_iff.mpr ⟨ho, rfl⟩
    cases hb : env.bridgeSilent (silentNaaRequest env request s0) with
    | error e =>
      rw [acquireTokenSilentInternal_eq_bridgeError env request s0 _ e hm
        hb]
      refine ⟨?_, ?_, ?_⟩
      · simp only [pushTrace]
        exact hgc
      · simp only [pushTrace]
        rw [htr]
        simp
      · intro res2 hres2
        simp at hres2
    | ok response =>
      cases hh : env.storageHydrateError with
      | some e =>
        rw [acquireTokenSilentInternal_eq_hydrateError env request s0 _
          response e hm hb hh]
        refine ⟨?_, ?_, ?_⟩
        · simp only [pushTrace]
          exact hgc
        · simp only [pushTrace]
          rw [htr]
          simp
        · intro res2 hres2
          simp at hres2
      | none =>
        have hnaa : (silentNaaRequest env request s0).correlationId =
            env.guid s0.guidCount := by
          unfold silentNaaRequest toNaaTokenRequest
          rw [hv]
          simp
        rw [acquireTokenSilentInternal_eq_bridgeSuccess env request s0 _
          response hm hb hh]
        refine ⟨?_, ?_, ?_⟩
        · simp only [pushTrace, setActiveAccountSt]
          exact hgc
        · simp only [pushTrace, setActiveAccountSt]
          rw [htr]
          simp
        · intro res2 hres2
          simp only [Except.ok.injEq] at hres2
          rw [← hres2]
          unfold fromNaaTokenResponse
          exact hnaa

/-- Witness for the amended C6: for the baseline environment and the
sample request without a correlation identifier, exactly one guid is drawn
and the start event carries the stamped request. -/
theorem correlationId_generated_once_witness :
    (acquireTokenSilent baseEnv reqNoCorr st0).2.guidCount =
      st0.guidCount + 1 ∧
    TraceItem.event
        (startEvent InteractionKind.silent
          { reqNoCorr with
            correlationId := some (baseEnv.guid st0.guidCount) }) ∈
      (acquireTokenSilent baseEnv reqNoCorr st0).2.trace :=
  ⟨(correlationId_generated_once baseEnv reqNoCorr st0 rfl).1,
   (correlationId_generated_once baseEnv reqNoCorr st0 rfl).2.1⟩

/-- An initial state with completely empty storage. -/
def stEmpty : St :=
  { store := { accounts := [], tokens := [], activeAccount := none }
    trace := []
    guidCount := 0 }

/-- An environment whose silent bridge call succeeds with the sample
response but whose storage-level hydration rejects. -/
def envHydErr : Env :=
  { baseEnv with
    bridgeSilent := fun _ => Except.ok tok0
    storageHydrateError := some (RawError.storage "reject") }

/-- C3 counterexample: a concrete silent run in which the bridge succeeds
but the storage-level hydration step rejects; the converted error propagates
to the caller, yet the account upsert performed by hydrateCache remains in
the store — the cache state is observably different from what it was before
the failing hydration step began. -/
theorem hydrateFailure_partialHydration_cex :
    (acquireTokenSilent envHydErr req0 stEmpty).1 =
      Except.error (fromBridgeError (RawError.storage "reject")) ∧
    (acquireTokenSilent envHydErr req0 stEmpty).2.store ≠ stEmpty.store ∧
    (acquireTokenSilent envHydErr req0 stEmpty).2.store.accounts =
      [acct0] ∧
    (acquireTokenSilent envHydErr req0 stEmpty).2.store.tokens = [] ∧
    stEmpty.store.accounts = [] := by
  exact ⟨rfl, by decide, by decide, by decide, rfl⟩

/-- C3 (amended). For every failure raised by the bridge call itself, silent
or interactive, the cache state when the converted error propagates is
exactly what it was before the bridge call; when the bridge succeeds but the
storage-level hydration step fails, exactly the account upsert performed by
hydrateCache before delegating to storage remains (token entries and active
account are unchanged). -/
theorem silent_failure_frame (env : Env) (request : TokenRequest)
    (s0 s' : St) (e : RawError) (response : NaaTokenResponse) :
    (silentCacheResult env request s0 = (none, s') →
      env.bridgeSilent (silentNaaRequest env request s0) = Except.error e →
      (acquireTokenSilentInternal env request s0).2.store = s'.store) ∧
    (silentCacheResult env request s0 = (none, s') →
      env.bridgeSilent (silentNaaRequest env request s0) =
        Except.ok response →
      env.storageHydrateError = some e →
      (acquireTokenSilentInternal env request s0).2.store =
        setAccountSt
          (fromNaaTokenResponse (silentNaaRequest env request s0) response
            env.now).account s'.store) ∧
    (env.bridgeInteractive
        (toNaaTokenRequest (ensureValidRequest env request s0).1) =
        Except.error e →
      (acquireTokenInteractive env request s0).2.store = s0.store) ∧
    (env.bridgeInteractive
        (toNaaTokenRequest (ensureValidRequest env request s0).1) =
        Except.ok response →
      env.storageHydrateError = some e →
      (acquireTokenInteractive env request s0).2.store =
        setAccountSt
          (fromNaaTokenResponse
            (toNaaTokenRequest (ensureValidRequest env request s0).1)
            response env.now).account s0.store) := by
  refine ⟨?_, ?_, ?_, ?_⟩
  · intro hm he
    rw [acquireTokenSilentInternal_eq_bridgeError env request s0 s' e hm he]
    simp [pushTrace]
  · intro hm hok hhe
    rw [acquireTokenSilentInternal_eq_hydrateError env request s0 s'
      response e hm hok hhe]
    simp [pushTrace]
  · intro he
    rw [acquireTokenInteractive_eq_bridgeError env request s0 e he]
    simp [pushTrace, ensureValidRequest_store]
  · intro hok hhe
    rw [acquireTokenInteractive_eq_hydrateError env request s0 response e
      hok hhe]
    simp [pushTrace, ensureValidRequest_store]

/-- Witness for the amended C3: a silent bridge failure leaves the store at
its pre-bridge state; a hydration failure leaves exactly the account
upsert. -/
theorem silent_failure_frame_witness :
    ((acquireTokenSilentInternal baseEnv req0 st0).2.store =
      (silentCacheResult baseEnv req0 st0).2.store) ∧
    ((acquireTokenSilentInternal envHydErr req0 stEmpty).2.store =
      setAccountSt
        (fromNaaTokenResponse (silentNaaRequest envHydErr req0 stEmpty) tok0
          envHydErr.now).account
        (silentCacheResult envHydErr req0 stEmpty).2.store) :=
  ⟨(silent_failure_frame baseEnv req0 st0
      (silentCacheResult baseEnv req0 st0).2
      (RawError.bridge "code" "msg") tok0).1 rfl rfl,
   (silent_failure_frame envHydErr req0 stEmpty
      (silentCacheResult envHydErr req0 stEmpty).2
      (RawError.storage "reject") tok0).2.1 rfl rfl rfl⟩

/-- C4. Every exception raised during the bridge call or the subsequent
hydration step, silent or interactive, is converted through fromBridgeError
before reaching the caller (the raw error is never thrown), and the throw
happens only after the failure event (carrying the raw error) is emitted
and the measurement is ended as failed — those are the final two trace
items. -/
theorem bridgeError_converted_after_bookkeeping (env : Env)
    (request : TokenRequest) (s0 s' : St) (e : RawError)
    (response : NaaTokenResponse) :
    (silentCacheResult env request s0 = (none, s') →
      env.bridgeSilent (silentNaaRequest env request s0) = Except.error e →
      (acquireTokenSilentInternal env request s0).1 =
        Except.error (fromBridgeError e) ∧
      ∃ pre, (acquireTokenSilentInternal env request s0).2.trace =
        pre ++
          [TraceItem.event (failureEvent InteractionKind.silent (some e)),
           TraceItem.measEnd MeasName.ssoSilentMeas false true]) ∧
    (silentCacheResult env request s0 = (none, s') →
      env.bridgeSilent (silentNaaRequest env request s0) =
        Except.ok response →
      env.storageHydrateError = some e →
      (acquireTokenSilentInternal env request s0).1 =
        Except.error (fromBridgeError e) ∧
      ∃ pre, (acquireTokenSilentInternal env request s0).2.trace =
        pre ++
          [TraceItem.event (failureEvent InteractionKind.silent (some e)),
           TraceItem.measEnd MeasName.ssoSilentMeas false true]) ∧
    (env.bridgeInteractive
        (toNaaTokenRequest (ensureValidRequest env request s0).1) =
        Except.error e →
      (acquireTokenInteractive env request s0).1 =
        Except.error (fromBridgeError e) ∧
      ∃ pre, (acquireTokenInteractive env request s0).2.trace =
        pre ++
          [TraceItem.event (failureEvent InteractionKind.popup (some e)),
           TraceItem.measEnd MeasName.acquireTokenPopupMeas false true]) ∧
    (env.bridgeInteractive
        (toNaaTokenRequest (ensureValidRequest env request s0).1) =
        Except.ok response →
      env.storageHydrateError = some e →
      (acquireTokenInteractive env request s0).1 =
        Except.error (fromBridgeError e) ∧
      ∃ pre, (acquireTokenInteractive env request s0).2.trace =
        pre ++
          [TraceItem.event (failureEvent InteractionKind.popup (some e)),
           TraceItem.measEnd MeasName.acquireTokenPopupMeas false true]) := by
  refine ⟨?_, ?_, ?_, ?_⟩
  · intro hm he
    rw [acquireTokenSilentInternal_eq_bridgeError env request s0 s' e hm he]
    refine ⟨rfl, ?_⟩
    refine ⟨(pushTrace
      (pushTrace s'
        (TraceItem.measStart MeasName.ssoSilentMeas
          (effCorrelationId env request s0)))
      (TraceItem.bridgeCall true (silentNaaRequest env request s0))).trace,
      ?_⟩
    simp [pushTrace]
  · intro hm hok hhe
    rw [acquireTokenSilentInternal_eq_hydrateError env request s0 s'
      response e hm hok hhe]
    refine ⟨rfl, ?_⟩
    refine ⟨(pushTrace
      (pushTrace s'
        (TraceItem.measStart MeasName.ssoSilentMeas
          (effCorrelationId env request s0)))
      (TraceItem.bridgeCall true (silentNaaRequest env request s0))).trace,
      ?_⟩
    simp [pushTrace]
  · intro he
    rw [acquireTokenInteractive_eq_bridgeError env request s0 e he]
    refine ⟨rfl, ?_⟩
    refine ⟨(ensureValidRequest env request s0).2.trace ++
      [TraceItem.event
        (startEvent InteractionKind.popup
          (ensureValidRequest env request s0).1),
       TraceItem.measStart MeasName.acquireTokenPopupMeas
         (effCorrelationId env request s0),
       TraceItem.bridgeCall false
         (toNaaTokenRequest (ensureValidRequest env request s0).1)], ?_⟩
    simp [pushTrace]
  · intro hok hhe
    rw [acquireTokenInteractive_eq_hydrateError env request s0 response e
      hok hhe]
    refine ⟨rfl, ?_⟩
    refine ⟨(ensureValidRequest env request s0).2.trace ++
      [TraceItem.event
        (startEvent InteractionKind.popup
          (ensureValidRequest env request s0).1),
       TraceItem.measStart MeasName.acquireTokenPopupMeas
         (effCorrelationId env request s0),
       TraceItem.bridgeCall false
         (toNaaTokenRequest (ensureValidRequest env request s0).1)], ?_⟩
    simp [pushTrace]

/-- Witness for C4: the baseline environment rejects both bridge calls with
the sample raw error, and the caller receives exactly its fromBridgeError
conversion. -/
theorem bridgeError_converted_after_bookkeeping_witness :
    ((acquireTokenSilentInternal baseEnv req0 st0).1 =
      Except.error (fromBridgeError (RawError.bridge "code" "msg"))) ∧
    ((acquireTokenInteractive baseEnv req0 st0).1 =
      Except.error (fromBridgeError (RawError.bridge "code" "msg"))) :=
  ⟨((bridgeError_converted_after_bookkeeping baseEnv req0 st0
      (silentCacheResult baseEnv req0 st0).2
      (RawError.bridge "code" "msg") tok0).1 rfl rfl).1,
   ((bridgeError_converted_after_bookkeeping baseEnv req0 st0
      (silentCacheResult baseEnv req0 st0).2
      (RawError.bridge "code" "msg") tok0).2.2.1 rfl).1⟩

/-- C9. Request normalization in the cache lookup: the normalized request
carries the picked correlation identifier (the request's own when present,
a freshly generated guid when missing), an authority defaulting to the
resolved account's environment when absent, scopes defaulting to the OIDC
minimum set when the caller supplied none or an empty list, and preserves
caller-supplied authority, scopes and account unchanged. -/
theorem cacheLookup_normalization (env : Env) (request : TokenRequest)
    (acct : AccountInfo) (c : String) (s : St) :
    ((normalizedRequest request acct c).correlationId = c) ∧
    (request.correlationId = none →
      (pickCorrelationId env request s).1 = env.guid s.guidCount) ∧
    (∀ c0, request.correlationId = some c0 →
      (pickCorrelationId env request s).1 = c0) ∧
    (request.authority = none →
      (normalizedRequest request acct c).authority = acct.environment) ∧
    (∀ u, request.authority = some u →
      (normalizedRequest request acct c).authority = u) ∧
    (request.scopes = [] →
      (normalizedRequest request acct c).scopes = OIDC_DEFAULT_SCOPES) ∧
    (request.scopes ≠ [] →
      (normalizedRequest request acct c).scopes = request.scopes) ∧
    ((normalizedRequest request acct c).account = request.account) := by
  refine ⟨rfl, ?_, ?_, ?_, ?_, ?_, ?_, rfl⟩
  · intro h
    simp [pickCorrelationId, newGuid, h]
  · intro c0 h
    simp [pickCorrelationId, h]
  · intro h
    simp [normalizedRequest, h]
  · intro u h
    simp [normalizedRequest, h]
  · intro h
    simp [normalizedRequest, h]
  · intro h
    simp [normalizedRequest, List.isEmpty_iff, h]

/-- Witness for C9 at concrete inputs: with no caller-supplied correlation
identifier, authority or scopes, the normalization defaults all three. -/
theorem cacheLookup_normalization_witness :
    (normalizedRequest reqNoCorr acct0 "c0").authority = acct0.environment ∧
    (normalizedRequest reqNoCorr acct0 "c0").scopes = OIDC_DEFAULT_SCOPES ∧
    (pickCorrelationId baseEnv reqNoCorr st0).1 = baseEnv.guid 0 ∧
    (normalizedRequest req0 acct0 "c0").scopes = req0.scopes :=
  ⟨(cacheLookup_normalization baseEnv reqNoCorr acct0 "c0" st0).2.2.2.1 rfl,
   (cacheLookup_normalization baseEnv reqNoCorr acct0 "c0"
      st0).2.2.2.2.2.1 rfl,
   (cacheLookup_normalization baseEnv reqNoCorr acct0 "c0" st0).2.1 rfl,
   (cacheLookup_normalization baseEnv req0 acct0 "c0"
      st0).2.2.2.2.2.2.1 (by simp [req0])⟩

/-- C2. A cached access token failing freshness validation (clock turned
back since it was cached, or the current time within the renewal-offset
margin of expiry) makes the cache lookup return absent and, as a side
effect, removes all cache entries associated with the resolved account
(removeAccountContext) before returning. -/
theorem staleAccessToken_purges_account (env : Env) (request : TokenRequest)
    (s0 : St) (acct : AccountInfo) (cat : CachedAccessToken)
    (hacct : resolveAccountSrc env request s0.store = some acct)
    (hat : env.getAccessToken acct
        (normalizedRequest request acct (pickCorrelationId env request s0).1)
      = some cat)
    (hstale : (wasClockTurnedBack env.now cat.cachedAt
        || isTokenExpired env.now cat.expiresOn env.renewalOffset) = true) :
    (acquireTokenFromCacheInternal env request s0).1 = none ∧
    (acquireTokenFromCacheInternal env request s0).2.store =
      removeAccountContext acct s0.store := by
  unfold acquireTokenFromCacheInternal
  rw [hacct]
  simp only [hat, hstale, if_true]
  constructor
  · trivial
  · simp [pushTrace, pickCorrelationId_store]

/-- Witness for C2: with the clock at 2000 the sample token (expiring at
1000) is stale, so the lookup misses and purges the sample account. -/
theorem staleAccessToken_purges_account_witness :
    (acquireTokenFromCacheInternal
        { baseEnv with now := 2000, getAccessToken := fun _ _ => some cat0 }
        req0 st0).1 = none ∧
    (acquireTokenFromCacheInternal
        { baseEnv with now := 2000, getAccessToken := fun _ _ => some cat0 }
        req0 st0).2.store = removeAccountContext acct0 st0.store :=
  staleAccessToken_purges_account
    { baseEnv with now := 2000, getAccessToken := fun _ _ => some cat0 }
    req0 st0 acct0 cat0 (by decide) rfl (by decide)
